import Mathlib

/-!
Verification of the S3 event module of the `aws-lambda-events` crate
(`src/aws_lambda_events/src/s3/mod.rs`).

The Rust code declares serde-derived record types (`S3Event`, `S3Record`,
`Identity`, `S3RequestParameters`, `S3ResponseElements`, `S3Entity`,
`S3Bucket`, `S3Object`).  Their decode/encode behaviour is fully determined
by the struct declarations together with their serde attributes
(`#[serde(rename = ...)]`, `#[serde(rename_all = "camelCase")]`,
`#[serde(default)]` on the `Option` fields, and no `skip_serializing_if`
anywhere) and by the standard serde_json / chrono codecs.  This file embeds
that behaviour shallowly: a `Json` wire-value type, one decoder and one
encoder per struct, and an RFC 3339 timestamp codec for the
`DateTime<Utc>` field `event_time`.
-/

set_option autoImplicit false

namespace AwsLambdaEvents

/-- Untyped wire value, as produced by a generic JSON parser
(serde_json's value model, with integral numerals). -/
inductive Json where
  | null
  | bool (b : Bool)
  | num (n : Int)
  | str (s : String)
  | arr (xs : List Json)
  | obj (fields : List (String × Json))

/-- Typed decode error, mirroring serde_json's error conditions for
derived struct deserializers: a required field key that is absent, a value
of the wrong structural kind, or a value the field codec rejects. -/
inductive DecError where
  | missingField (key : String)
  | typeMismatch (expected : String)
  | invalidValue (msg : String)

/-- Key lookup in a decoded JSON object (first occurrence wins). -/
def jLookup (fields : List (String × Json)) (k : String) : Option Json :=
  List.lookup k fields

/-- The field list of an object value (empty for non-objects). -/
def jsonFields : Json → List (String × Json)
  | .obj fields => fields
  | _ => []

/-- The declared wire keys an encoded object emits. -/
def jsonKeys (j : Json) : List String :=
  (jsonFields j).map Prod.fst

/-! ### Timestamp codec

Modelled from the spec: the chrono `DateTime<Utc>` serde codec used by
`S3Record::event_time` is not part of this repository's sources.  Per the
spec's tolerant-timestamp codec, decode accepts an ISO-8601 / RFC 3339
date-time string (`YYYY-MM-DDThh:mm:ss[.frac]` followed by `Z` or an
explicit `±hh:mm` offset, four-digit years) and normalizes the offset away,
yielding a canonical absolute time expressed in UTC civil fields; encode
writes seconds and, when the fractional part is nonzero, the shortest of
milli/micro/nanosecond precision, with the `Z` designator. -/

/-- Canonical absolute time value: civil date-time fields in UTC. -/
structure DateTimeUtc where
  year : Nat
  month : Nat
  day : Nat
  hour : Nat
  minute : Nat
  second : Nat
  nano : Nat
deriving DecidableEq

/-- Gregorian leap-year rule. -/
def isLeapYear (y : Nat) : Bool :=
  (y % 4 == 0 && y % 100 != 0) || y % 400 == 0

/-- Number of days in a month. -/
def daysInMonth (y m : Nat) : Nat :=
  if m = 2 then (if isLeapYear y then 29 else 28)
  else if m = 4 ∨ m = 6 ∨ m = 9 ∨ m = 11 then 30
  else 31

/-- Calendar validity of a year/month/day triple. -/
def validYmd (y m d : Nat) : Prop :=
  1 ≤ m ∧ m ≤ 12 ∧ 1 ≤ d ∧ d ≤ daysInMonth y m

instance (y m d : Nat) : Decidable (validYmd y m d) := by
  unfold validYmd; infer_instance

/-- The calendar day before a given day. -/
def prevYmd (y m d : Nat) : Nat × Nat × Nat :=
  if 2 ≤ d then (y, m, d - 1)
  else if 2 ≤ m then (y, m - 1, daysInMonth y (m - 1))
  else (y - 1, 12, 31)

/-- The calendar day after a given day. -/
def nextYmd (y m d : Nat) : Nat × Nat × Nat :=
  if d < daysInMonth y m then (y, m, d + 1)
  else if m < 12 then (y, m + 1, 1)
  else (y + 1, 1, 1)

/-- Apply an already-offset-adjusted time-of-day in minutes `tm`
(in the open interval `(-1440, 2880)`) to a civil date, borrowing or
carrying at most one day; fails when the result leaves the four-digit
year range of the wire format. -/
def normTime (y m d : Nat) (tm : Int) (se nano : Nat) : Option DateTimeUtc :=
  if tm < 0 then
    if y = 0 ∧ m = 1 ∧ d = 1 then none
    else
      some ⟨(prevYmd y m d).1, (prevYmd y m d).2.1, (prevYmd y m d).2.2,
            ((tm + 1440) / 60).toNat, ((tm + 1440) % 60).toNat, se, nano⟩
  else if tm < 1440 then
    some ⟨y, m, d, (tm / 60).toNat, (tm % 60).toNat, se, nano⟩
  else if (nextYmd y m d).1 ≤ 9999 then
    some ⟨(nextYmd y m d).1, (nextYmd y m d).2.1, (nextYmd y m d).2.2,
          ((tm - 1440) / 60).toNat, ((tm - 1440) % 60).toNat, se, nano⟩
  else none

/-- ASCII decimal digit test. -/
def isDigitB (c : Char) : Bool :=
  48 ≤ c.toNat && c.toNat ≤ 57

/-- Value of an ASCII decimal digit. -/
def digitVal? (c : Char) : Option Nat :=
  if isDigitB c then some (c.toNat - 48) else none

/-- Two-digit decimal value. -/
def d2 (a b : Char) : Option Nat :=
  match digitVal? a, digitVal? b with
  | some x, some y => some (10 * x + y)
  | _, _ => none

/-- Four-digit decimal value. -/
def d4 (a b c d : Char) : Option Nat :=
  match d2 a b, d2 c d with
  | some x, some y => some (100 * x + y)
  | _, _ => none

/-- Nanosecond value of a fractional-second digit string: the first nine
digits are significant, shorter strings are right-padded with zeros. -/
def nanoFromDigits (ds : List Char) : Nat :=
  ((ds.take 9).foldl (fun acc c => acc * 10 + (c.toNat - 48)) 0)
    * 10 ^ (9 - min 9 ds.length)

/-- Parse an optional fractional-second part; without a leading dot the
input is left untouched and the fraction is zero. -/
def parseFrac : List Char → Option (Nat × List Char)
  | '.' :: rest =>
    if (rest.takeWhile isDigitB).isEmpty then none
    else some (nanoFromDigits (rest.takeWhile isDigitB), rest.dropWhile isDigitB)
  | rest => some (0, rest)

/-- Parse the closing UTC designator or numeric offset, in minutes. -/
def parseOffset : List Char → Option Int
  | ['Z'] => some 0
  | '+' :: a :: b :: ':' :: c :: d :: [] =>
    match d2 a b, d2 c d with
    | some h, some m => if h ≤ 23 ∧ m ≤ 59 then some ((h : Int) * 60 + m) else none
    | _, _ => none
  | '-' :: a :: b :: ':' :: c :: d :: [] =>
    match d2 a b, d2 c d with
    | some h, some m => if h ≤ 23 ∧ m ≤ 59 then some (-((h : Int) * 60 + m)) else none
    | _, _ => none
  | _ => none

/-- Parse an RFC 3339 date-time character sequence and normalize the
offset away, yielding UTC civil fields. -/
def parseTsChars : List Char → Option DateTimeUtc
  | y1 :: y2 :: y3 :: y4 :: '-' :: m1 :: m2 :: '-' :: a1 :: a2 :: 'T' ::
      h1 :: h2 :: ':' :: n1 :: n2 :: ':' :: s1 :: s2 :: rest =>
    match d4 y1 y2 y3 y4 with
    | none => none
    | some y =>
    match d2 m1 m2 with
    | none => none
    | some mo =>
    match d2 a1 a2 with
    | none => none
    | some da =>
    match d2 h1 h2 with
    | none => none
    | some h =>
    match d2 n1 n2 with
    | none => none
    | some mi =>
    match d2 s1 s2 with
    | none => none
    | some se =>
    match parseFrac rest with
    | none => none
    | some (nano, rest2) =>
    match parseOffset rest2 with
    | none => none
    | some off =>
      if validYmd y mo da ∧ y ≤ 9999 ∧ h ≤ 23 ∧ mi ≤ 59 ∧ se ≤ 59 then
        normTime y mo da (((h : Int) * 60 + mi) - off) se nano
      else none
  | _ => none

/-- Parse an RFC 3339 date-time string. -/
def parseTimestamp (s : String) : Option DateTimeUtc :=
  parseTsChars s.data

/-- ASCII digit character of a value below ten. -/
def digitChar (n : Nat) : Char :=
  Char.ofNat (48 + n)

/-- Two-digit zero-padded rendering. -/
def pad2 (n : Nat) : List Char :=
  [digitChar (n / 10), digitChar (n % 10)]

/-- Three-digit zero-padded rendering. -/
def pad3 (n : Nat) : List Char :=
  [digitChar (n / 100), digitChar (n / 10 % 10), digitChar (n % 10)]

/-- Six-digit zero-padded rendering. -/
def pad6 (n : Nat) : List Char :=
  pad3 (n / 1000) ++ pad3 (n % 1000)

/-- Nine-digit zero-padded rendering. -/
def pad9 (n : Nat) : List Char :=
  pad3 (n / 1000000) ++ pad3 (n / 1000 % 1000) ++ pad3 (n % 1000)

/-- Fractional-second rendering at automatic precision: nothing when the
nanosecond part is zero, else milli-, micro- or nanosecond digits. -/
def fracChars (nano : Nat) : List Char :=
  if nano = 0 then []
  else if nano % 1000000 = 0 then '.' :: pad3 (nano / 1000000)
  else if nano % 1000 = 0 then '.' :: pad6 (nano / 1000)
  else '.' :: pad9 nano

/-- Render a canonical UTC date-time in RFC 3339 form with the `Z`
designator. -/
def formatChars (t : DateTimeUtc) : List Char :=
  digitChar (t.year / 1000) :: digitChar (t.year / 100 % 10) ::
  digitChar (t.year / 10 % 10) :: digitChar (t.year % 10) :: '-' ::
  pad2 t.month ++ '-' :: pad2 t.day ++ 'T' ::
  pad2 t.hour ++ ':' :: pad2 t.minute ++ ':' :: pad2 t.second ++
  fracChars t.nano ++ ['Z']

/-- Render a canonical UTC date-time as a string. -/
def formatTimestamp (t : DateTimeUtc) : String :=
  String.mk (formatChars t)

/-- Well-formedness of a canonical UTC date-time: exactly the values the
parser can produce, and from which the renderer is re-parseable. -/
def TsOk (t : DateTimeUtc) : Prop :=
  validYmd t.year t.month t.day ∧ t.year ≤ 9999 ∧ t.hour ≤ 23 ∧
    t.minute ≤ 59 ∧ t.second ≤ 59 ∧ t.nano < 1000000000

instance (t : DateTimeUtc) : Decidable (TsOk t) := by
  unfold TsOk; infer_instance

/-! ### Field codecs and adapters -/

/-- Decode a JSON string (serde `String` deserializer). -/
def decodeString : Json → Except DecError String
  | .str s => .ok s
  | _ => .error (.typeMismatch "string")

/-- Decode a JSON number into a signed 64-bit range integer
(serde_json `i64` deserializer). -/
def decodeI64 : Json → Except DecError Int
  | .num n =>
    if -(2 ^ 63) ≤ n ∧ n < 2 ^ 63 then .ok n
    else .error (.invalidValue "i64 out of range")
  | _ => .error (.typeMismatch "i64")

/-- Decode a `DateTime<Utc>` field: an RFC 3339 string, normalized to
UTC; anything else fails. -/
def decodeTimestamp : Json → Except DecError DateTimeUtc
  | .str s =>
    match parseTimestamp s with
    | some t => .ok t
    | none => .error (.invalidValue "ISO-8601 date-time")
  | _ => .error (.typeMismatch "ISO-8601 date-time string")

/-- Field adapter for an `Option` field carrying `#[serde(default)]`:
an absent field yields the default `none` without invoking the inner
codec; an explicit null yields `none`; otherwise the inner codec decides. -/
def decodeOptVal {α : Type} (dec : Json → Except DecError α) :
    Option Json → Except DecError (Option α)
  | none => .ok none
  | some .null => .ok none
  | some v => (dec v).map some

/-- Field adapter for a required field: the key must be present and its
value must decode. -/
def getReq {α : Type} (fields : List (String × Json)) (k : String)
    (dec : Json → Except DecError α) : Except DecError α :=
  match jLookup fields k with
  | none => .error (.missingField k)
  | some v => dec v

/-- Field adapter for an optional (`#[serde(default)]` `Option`) field. -/
def getOpt {α : Type} (fields : List (String × Json)) (k : String)
    (dec : Json → Except DecError α) : Except DecError (Option α) :=
  decodeOptVal dec (jLookup fields k)

/-- Encode an `Option<i64>` field value: serde serializes `None` as an
explicit JSON null (no `skip_serializing_if` is declared). -/
def encodeOptI64 : Option Int → Json
  | none => .null
  | some n => .num n

/-- Encode an `Option<String>` field value: `None` becomes explicit null. -/
def encodeOptStr : Option String → Json
  | none => .null
  | some s => .str s

/-! ### Record types (from `s3/mod.rs`) -/

/-- Rust struct `Identity`. -/
structure Identity where
  principal_id : String
deriving DecidableEq

/-- Rust struct `S3RequestParameters`. -/
structure S3RequestParameters where
  source_ip_address : String
deriving DecidableEq

/-- Rust struct `S3ResponseElements`. -/
structure S3ResponseElements where
  amazon_request_id : String
  amazon_host_id : String
deriving DecidableEq

/-- Rust struct `S3Bucket`. -/
structure S3Bucket where
  name : String
  owner_identity : Identity
  arn : String
deriving DecidableEq

/-- Rust struct `S3Object`; the four trailing fields are
`#[serde(default)]` `Option` fields. -/
structure S3Object where
  key : String
  size : Option Int
  version_id : Option String
  e_tag : Option String
  sequencer : Option String
deriving DecidableEq

/-- Rust struct `S3Entity`. -/
structure S3Entity where
  schema_version : String
  configuration_id : String
  bucket : S3Bucket
  object : S3Object
deriving DecidableEq

/-- Rust struct `S3Record`. -/
structure S3Record where
  event_version : String
  event_source : String
  aws_region : String
  event_time : DateTimeUtc
  event_name : String
  user_identity : Identity
  request_parameters : S3RequestParameters
  response_elements : S3ResponseElements
  s3 : S3Entity
deriving DecidableEq

/-- Rust struct `S3Event`. -/
structure S3Event where
  records : List S3Record
deriving DecidableEq

/-! ### Decoders (serde-derived `Deserialize` semantics: field lookup by
declared wire key, unknown keys ignored, required fields mandatory,
`#[serde(default)]` `Option` fields tolerant of absence and null) -/

/-- Decode an `Identity` (`rename_all = "camelCase"`). -/
def decodeIdentity : Json → Except DecError Identity
  | .obj fields =>
    (match getReq fields "principalId" decodeString with
    | .error e => .error e
    | .ok principal_id => .ok ⟨principal_id⟩)
  | _ => .error (.typeMismatch "Identity object")

/-- Decode an `S3RequestParameters` (explicit key rename
`sourceIPAddress`). -/
def decodeS3RequestParameters : Json → Except DecError S3RequestParameters
  | .obj fields =>
    (match getReq fields "sourceIPAddress" decodeString with
    | .error e => .error e
    | .ok source_ip_address => .ok ⟨source_ip_address⟩)
  | _ => .error (.typeMismatch "S3RequestParameters object")

/-- Decode an `S3ResponseElements` (explicit hyphenated key renames). -/
def decodeS3ResponseElements : Json → Except DecError S3ResponseElements
  | .obj fields =>
    (match getReq fields "x-amz-request-id" decodeString with
    | .error e => .error e
    | .ok amazon_request_id =>
    match getReq fields "x-amz-id-2" decodeString with
    | .error e => .error e
    | .ok amazon_host_id => .ok ⟨amazon_request_id, amazon_host_id⟩)
  | _ => .error (.typeMismatch "S3ResponseElements object")

/-- Decode an `S3Bucket` (`rename_all = "camelCase"`). -/
def decodeS3Bucket : Json → Except DecError S3Bucket
  | .obj fields =>
    (match getReq fields "name" decodeString with
    | .error e => .error e
    | .ok name =>
    match getReq fields "ownerIdentity" decodeIdentity with
    | .error e => .error e
    | .ok owner_identity =>
    match getReq fields "arn" decodeString with
    | .error e => .error e
    | .ok arn => .ok ⟨name, owner_identity, arn⟩)
  | _ => .error (.typeMismatch "S3Bucket object")

/-- Decode an `S3Object`: `key` is required, the `size`, `versionId`,
`eTag` and `sequencer` fields are optional with default. -/
def decodeS3Object : Json → Except DecError S3Object
  | .obj fields =>
    (match getReq fields "key" decodeString with
    | .error e => .error e
    | .ok key =>
    match getOpt fields "size" decodeI64 with
    | .error e => .error e
    | .ok size =>
    match getOpt fields "versionId" decodeString with
    | .error e => .error e
    | .ok version_id =>
    match getOpt fields "eTag" decodeString with
    | .error e => .error e
    | .ok e_tag =>
    match getOpt fields "sequencer" decodeString with
    | .error e => .error e
    | .ok sequencer => .ok ⟨key, size, version_id, e_tag, sequencer⟩)
  | _ => .error (.typeMismatch "S3Object object")

/-- Decode an `S3Entity` (`rename_all = "camelCase"` plus the explicit
`s3SchemaVersion` rename). -/
def decodeS3Entity : Json → Except DecError S3Entity
  | .obj fields =>
    (match getReq fields "s3SchemaVersion" decodeString with
    | .error e => .error e
    | .ok schema_version =>
    match getReq fields "configurationId" decodeString with
    | .error e => .error e
    | .ok configuration_id =>
    match getReq fields "bucket" decodeS3Bucket with
    | .error e => .error e
    | .ok bucket =>
    match getReq fields "object" decodeS3Object with
    | .error e => .error e
    | .ok object => .ok ⟨schema_version, configuration_id, bucket, object⟩)
  | _ => .error (.typeMismatch "S3Entity object")

/-- Decode an `S3Record` (`rename_all = "camelCase"`); every field is
required. -/
def decodeS3Record : Json → Except DecError S3Record
  | .obj fields =>
    (match getReq fields "eventVersion" decodeString with
    | .error e => .error e
    | .ok event_version =>
    match getReq fields "eventSource" decodeString with
    | .error e => .error e
    | .ok event_source =>
    match getReq fields "awsRegion" decodeString with
    | .error e => .error e
    | .ok aws_region =>
    match getReq fields "eventTime" decodeTimestamp with
    | .error e => .error e
    | .ok event_time =>
    match getReq fields "eventName" decodeString with
    | .error e => .error e
    | .ok event_name =>
    match getReq fields "userIdentity" decodeIdentity with
    | .error e => .error e
    | .ok user_identity =>
    match getReq fields "requestParameters" decodeS3RequestParameters with
    | .error e => .error e
    | .ok request_parameters =>
    match getReq fields "responseElements" decodeS3ResponseElements with
    | .error e => .error e
    | .ok response_elements =>
    match getReq fields "s3" decodeS3Entity with
    | .error e => .error e
    | .ok s3 =>
      .ok ⟨event_version, event_source, aws_region, event_time, event_name,
           user_identity, request_parameters, response_elements, s3⟩)
  | _ => .error (.typeMismatch "S3Record object")

/-- Decode a `Vec<S3Record>`: element-wise, failing on the first bad
element. -/
def decodeRecords : List Json → Except DecError (List S3Record)
  | [] => .ok []
  | j :: rest =>
    match decodeS3Record j with
    | .error e => .error e
    | .ok r =>
      match decodeRecords rest with
      | .error e => .error e
      | .ok rs => .ok (r :: rs)

/-- Decode an `S3Event`: an object whose required `Records` key holds an
array of records. -/
def decodeS3Event : Json → Except DecError S3Event
  | .obj fields =>
    (match getReq fields "Records"
        (fun v =>
          match v with
          | .arr xs =>
            (match decodeRecords xs with
            | .error e => .error e
            | .ok rs => .ok (S3Event.mk rs))
          | _ => .error (.typeMismatch "Records array")) with
    | .error e => .error e
    | .ok ev => .ok ev)
  | _ => .error (.typeMismatch "S3Event object")

/-! ### Encoders (serde-derived `Serialize` semantics: every declared
field is emitted under its declared wire key, in declaration order) -/

/-- Encode an `Identity`. -/
def encodeIdentity (i : Identity) : Json :=
  .obj [("principalId", .str i.principal_id)]

/-- Encode an `S3RequestParameters`. -/
def encodeS3RequestParameters (p : S3RequestParameters) : Json :=
  .obj [("sourceIPAddress", .str p.source_ip_address)]

/-- Encode an `S3ResponseElements`. -/
def encodeS3ResponseElements (q : S3ResponseElements) : Json :=
  .obj [("x-amz-request-id", .str q.amazon_request_id),
        ("x-amz-id-2", .str q.amazon_host_id)]

/-- Encode an `S3Bucket`. -/
def encodeS3Bucket (b : S3Bucket) : Json :=
  .obj [("name", .str b.name),
        ("ownerIdentity", encodeIdentity b.owner_identity),
        ("arn", .str b.arn)]

/-- Encode an `S3Object`; the `Option` fields are always emitted, with
`None` as explicit null. -/
def encodeS3Object (o : S3Object) : Json :=
  .obj [("key", .str o.key),
        ("size", encodeOptI64 o.size),
        ("versionId", encodeOptStr o.version_id),
        ("eTag", encodeOptStr o.e_tag),
        ("sequencer", encodeOptStr o.sequencer)]

/-- Encode an `S3Entity`. -/
def encodeS3Entity (s : S3Entity) : Json :=
  .obj [("s3SchemaVersion", .str s.schema_version),
        ("configurationId", .str s.configuration_id),
        ("bucket", encodeS3Bucket s.bucket),
        ("object", encodeS3Object s.object)]

/-- Encode an `S3Record`. -/
def encodeS3Record (r : S3Record) : Json :=
  .obj [("eventVersion", .str r.event_version),
        ("eventSource", .str r.event_source),
        ("awsRegion", .str r.aws_region),
        ("eventTime", .str (formatTimestamp r.event_time)),
        ("eventName", .str r.event_name),
        ("userIdentity", encodeIdentity r.user_identity),
        ("requestParameters", encodeS3RequestParameters r.request_parameters),
        ("responseElements", encodeS3ResponseElements r.response_elements),
        ("s3", encodeS3Entity r.s3)]

/-- Encode an `S3Event`. -/
def encodeS3Event (e : S3Event) : Json :=
  .obj [("Records", .arr (e.records.map encodeS3Record))]

/-! ### Concrete sample payload (the shape of
`test_data/s3-event-objectcreated-put.json` used by the crate's
round-trip test `example_s3_event_objectcreated_put`; note the sample
has no `versionId` key) -/

/-- Wire form of the captured object-created sample. -/
def sampleObjectJson : Json :=
  .obj [("key", .str "HappyFace.jpg"),
        ("size", .num 1024),
        ("eTag", .str "d41d8cd98f00b204e9800998ecf8427e"),
        ("sequencer", .str "0055AED6DCD90281E5")]

/-- Decoded form of the sample `object` member. -/
def sampleObject : S3Object :=
  ⟨"HappyFace.jpg", some 1024, none, some "d41d8cd98f00b204e9800998ecf8427e",
   some "0055AED6DCD90281E5"⟩

/-- Wire form of the captured object-created event sample. -/
def sampleWire : Json :=
  .obj [("Records", .arr [
    .obj [("eventVersion", .str "2.0"),
          ("eventSource", .str "aws:s3"),
          ("awsRegion", .str "us-east-1"),
          ("eventTime", .str "1970-01-01T00:00:00.000Z"),
          ("eventName", .str "ObjectCreated:Put"),
          ("userIdentity", .obj [("principalId", .str "EXAMPLE")]),
          ("requestParameters", .obj [("sourceIPAddress", .str "127.0.0.1")]),
          ("responseElements", .obj [("x-amz-request-id", .str "C3D13FE58DE4C810"),
                                     ("x-amz-id-2", .str "FMyUVURIY8")]),
          ("s3", .obj [("s3SchemaVersion", .str "1.0"),
                       ("configurationId", .str "testConfigRule"),
                       ("bucket", .obj [("name", .str "mybucket"),
                                        ("ownerIdentity", .obj [("principalId", .str "EXAMPLE")]),
                                        ("arn", .str "arn:aws:s3:::mybucket")]),
                       ("object", sampleObjectJson)])]])]

/-- Decoded form of the captured sample event. -/
def sampleEvent : S3Event :=
  ⟨[⟨"2.0", "aws:s3", "us-east-1", ⟨1970, 1, 1, 0, 0, 0, 0⟩, "ObjectCreated:Put",
     ⟨"EXAMPLE"⟩, ⟨"127.0.0.1"⟩, ⟨"C3D13FE58DE4C810", "FMyUVURIY8"⟩,
     ⟨"1.0", "testConfigRule", ⟨"mybucket", ⟨"EXAMPLE"⟩, "arn:aws:s3:::mybucket"⟩,
      sampleObject⟩⟩]⟩

/-! ### Well-formedness predicates: exactly what a successful decode can
produce, and what guarantees a re-parseable encoding -/

/-- Range invariant of a decoded optional `i64`. -/
def optI64Ok : Option Int → Prop
  | none => True
  | some n => -(2 ^ 63) ≤ n ∧ n < 2 ^ 63

instance (s : Option Int) : Decidable (optI64Ok s) := by
  unfold optI64Ok; cases s <;> infer_instance

/-- Invariant of a decoded `S3Object`. -/
def S3ObjectOk (o : S3Object) : Prop :=
  optI64Ok o.size

instance (o : S3Object) : Decidable (S3ObjectOk o) := by
  unfold S3ObjectOk; infer_instance

/-- Invariant of a decoded `S3Record`. -/
def S3RecordOk (r : S3Record) : Prop :=
  TsOk r.event_time ∧ S3ObjectOk r.s3.object

instance (r : S3Record) : Decidable (S3RecordOk r) := by
  unfold S3RecordOk; infer_instance

/-- Invariant of a decoded `S3Event`. -/
def S3EventOk (e : S3Event) : Prop :=
  ∀ r ∈ e.records, S3RecordOk r

instance (e : S3Event) : Decidable (S3EventOk e) := by
  unfold S3EventOk; infer_instance

/-! ### Timestamp codec lemmas -/

theorem toNat_digitChar (n : Nat) (h : n < 10) : (digitChar n).toNat = 48 + n := by
  interval_cases n <;> rfl

theorem digitVal_digitChar (n : Nat) (h : n < 10) : digitVal? (digitChar n) = some n := by
  interval_cases n <;> rfl

theorem isDigitB_digitChar (n : Nat) (h : n < 10) : isDigitB (digitChar n) = true := by
  interval_cases n <;> rfl

theorem isDigitB_le (c : Char) (h : isDigitB c = true) :
    48 ≤ c.toNat ∧ c.toNat ≤ 57 := by
  unfold isDigitB at h
  simp only [Bool.and_eq_true, decide_eq_true_eq] at h
  exact h

theorem d2_pad2 (n : Nat) (h : n ≤ 99) :
    d2 (digitChar (n / 10)) (digitChar (n % 10)) = some n := by
  unfold d2
  rw [digitVal_digitChar _ (by omega), digitVal_digitChar _ (by omega)]
  exact congrArg some (by omega)

theorem d4_pad (n : Nat) (h : n ≤ 9999) :
    d4 (digitChar (n / 1000)) (digitChar (n / 100 % 10))
       (digitChar (n / 10 % 10)) (digitChar (n % 10)) = some n := by
  unfold d4
  have e1 : n / 1000 = (n / 100) / 10 := by omega
  have e2 : n / 100 % 10 = (n / 100) % 10 := rfl
  have e3 : n / 10 % 10 = (n % 100) / 10 := by omega
  have e4 : n % 10 = (n % 100) % 10 := by omega
  rw [e1, e2, e3, e4, d2_pad2 _ (by omega), d2_pad2 _ (by omega)]
  exact congrArg some (by omega)

theorem foldl_digits_lt (ds : List Char) (h : ∀ c ∈ ds, isDigitB c = true) :
    ∀ acc, ds.foldl (fun a c => a * 10 + (c.toNat - 48)) acc < (acc + 1) * 10 ^ ds.length := by
  induction ds with
  | nil =>
    intro acc
    simp only [List.foldl_nil, List.length_nil, pow_zero, Nat.mul_one]
    omega
  | cons c tl ih =>
    intro acc
    have hc := isDigitB_le c (h c (by simp))
    have htl : ∀ x ∈ tl, isDigitB x = true := fun x hx => h x (by simp [hx])
    have := ih htl (acc * 10 + (c.toNat - 48))
    simp only [List.foldl_cons, List.length_cons]
    calc tl.foldl (fun a c => a * 10 + (c.toNat - 48)) (acc * 10 + (c.toNat - 48))
        < (acc * 10 + (c.toNat - 48) + 1) * 10 ^ tl.length := this
      _ ≤ ((acc + 1) * 10) * 10 ^ tl.length := by
          apply Nat.mul_le_mul_right
          omega
      _ = (acc + 1) * 10 ^ (tl.length + 1) := by ring

theorem nanoFromDigits_lt (ds : List Char) (h : ∀ c ∈ ds, isDigitB c = true) :
    nanoFromDigits ds < 1000000000 := by
  unfold nanoFromDigits
  have h9 : ∀ c ∈ ds.take 9, isDigitB c = true := fun c hc => h c (List.mem_of_mem_take hc)
  have hb := foldl_digits_lt (ds.take 9) h9 0
  rw [List.length_take] at hb
  have hb2 : (ds.take 9).foldl (fun a c => a * 10 + (c.toNat - 48)) 0 < 10 ^ (min 9 ds.length) := by
    calc (ds.take 9).foldl (fun a c => a * 10 + (c.toNat - 48)) 0
        < (0 + 1) * 10 ^ (min 9 ds.length) := hb
      _ = 10 ^ (min 9 ds.length) := by ring
  calc ((ds.take 9).foldl (fun a c => a * 10 + (c.toNat - 48)) 0) * 10 ^ (9 - min 9 ds.length)
      < 10 ^ (min 9 ds.length) * 10 ^ (9 - min 9 ds.length) :=
        mul_lt_mul_of_pos_right hb2 (pow_pos (by norm_num) _)
    _ = 10 ^ 9 := by rw [← pow_add]; congr 1; omega
    _ = 1000000000 := by norm_num

theorem takeWhile_digits_z (ds : List Char) (h : ∀ c ∈ ds, isDigitB c = true) :
    (ds ++ ['Z']).takeWhile isDigitB = ds ∧ (ds ++ ['Z']).dropWhile isDigitB = ['Z'] := by
  induction ds with
  | nil => constructor <;> rfl
  | cons c tl ih =>
    have hc : isDigitB c = true := h c (by simp)
    have htl : ∀ x ∈ tl, isDigitB x = true := fun x hx => h x (by simp [hx])
    obtain ⟨h1, h2⟩ := ih htl
    constructor
    · simp [List.takeWhile, hc, h1]
    · simp [List.dropWhile, hc, h2]

theorem pad3_digits (q : Nat) (h : q ≤ 999) : ∀ c ∈ pad3 q, isDigitB c = true := by
  intro c hc
  unfold pad3 at hc
  simp only [List.mem_cons, List.not_mem_nil, or_false] at hc
  rcases hc with h2 | h2 | h2 <;> subst h2 <;> exact isDigitB_digitChar _ (by omega)

theorem pad6_digits (q : Nat) (h : q ≤ 999999) : ∀ c ∈ pad6 q, isDigitB c = true := by
  intro c hc
  unfold pad6 at hc
  rcases List.mem_append.mp hc with h2 | h2
  · exact pad3_digits _ (by omega) c h2
  · exact pad3_digits _ (by omega) c h2

theorem pad9_digits (q : Nat) (h : q ≤ 999999999) : ∀ c ∈ pad9 q, isDigitB c = true := by
  intro c hc
  unfold pad9 at hc
  rcases List.mem_append.mp hc with h2 | h2
  · rcases List.mem_append.mp h2 with h3 | h3
    · exact pad3_digits _ (by omega) c h3
    · exact pad3_digits _ (by omega) c h3
  · exact pad3_digits _ (by omega) c h2

theorem nanoFromDigits_pad3 (q : Nat) (h : q ≤ 999) :
    nanoFromDigits (pad3 q) = q * 1000000 := by
  unfold nanoFromDigits pad3
  rw [List.take_of_length_le (by simp)]
  simp only [List.foldl_cons, List.foldl_nil, List.length_cons, List.length_nil]
  rw [toNat_digitChar _ (by omega), toNat_digitChar _ (by omega), toNat_digitChar _ (by omega)]
  norm_num
  omega

theorem nanoFromDigits_pad6 (q : Nat) (h : q ≤ 999999) :
    nanoFromDigits (pad6 q) = q * 1000 := by
  unfold nanoFromDigits pad6 pad3
  simp only [List.cons_append, List.nil_append]
  rw [List.take_of_length_le (by simp)]
  simp only [List.foldl_cons, List.foldl_nil, List.length_cons, List.length_nil]
  rw [toNat_digitChar _ (by omega), toNat_digitChar _ (by omega), toNat_digitChar _ (by omega),
      toNat_digitChar _ (by omega), toNat_digitChar _ (by omega), toNat_digitChar _ (by omega)]
  norm_num
  omega

theorem nanoFromDigits_pad9 (q : Nat) (h : q ≤ 999999999) :
    nanoFromDigits (pad9 q) = q := by
  unfold nanoFromDigits pad9 pad3
  simp only [List.cons_append, List.nil_append]
  rw [List.take_of_length_le (by simp)]
  simp only [List.foldl_cons, List.foldl_nil, List.length_cons, List.length_nil]
  rw [toNat_digitChar _ (by omega), toNat_digitChar _ (by omega), toNat_digitChar _ (by omega),
      toNat_digitChar _ (by omega), toNat_digitChar _ (by omega), toNat_digitChar _ (by omega),
      toNat_digitChar _ (by omega), toNat_digitChar _ (by omega), toNat_digitChar _ (by omega)]
  norm_num
  omega

theorem parseFrac_fracChars (nano : Nat) (h : nano < 1000000000) :
    parseFrac (fracChars nano ++ ['Z']) = some (nano, ['Z']) := by
  unfold fracChars
  by_cases h0 : nano = 0
  · simp only [h0, if_pos rfl]
    rfl
  · rw [if_neg h0]
    by_cases h1 : nano % 1000000 = 0
    · rw [if_pos h1]
      obtain ⟨ht, hw⟩ := takeWhile_digits_z _ (pad3_digits (nano / 1000000) (by omega))
      simp only [List.cons_append, parseFrac, ht, hw]
      rw [show pad3 (nano / 1000000) = [digitChar (nano / 1000000 / 100),
          digitChar (nano / 1000000 / 10 % 10), digitChar (nano / 1000000 % 10)] from rfl]
      simp only [List.isEmpty_cons, if_false, Bool.false_eq_true]
      rw [show nanoFromDigits [digitChar (nano / 1000000 / 100),
          digitChar (nano / 1000000 / 10 % 10), digitChar (nano / 1000000 % 10)] =
          nano / 1000000 * 1000000 from nanoFromDigits_pad3 _ (by omega)]
      exact congrArg some (by rw [Nat.div_mul_cancel (Nat.dvd_of_mod_eq_zero h1)])
    · rw [if_neg h1]
      by_cases h2 : nano % 1000 = 0
      · rw [if_pos h2]
        obtain ⟨ht, hw⟩ := takeWhile_digits_z _ (pad6_digits (nano / 1000) (by omega))
        simp only [List.cons_append, parseFrac, ht, hw]
        rw [show (pad6 (nano / 1000)).isEmpty = false from rfl]
        simp only [if_false, Bool.false_eq_true]
        rw [nanoFromDigits_pad6 _ (by omega)]
        exact congrArg some (by rw [Nat.div_mul_cancel (Nat.dvd_of_mod_eq_zero h2)])
      · rw [if_neg h2]
        obtain ⟨ht, hw⟩ := takeWhile_digits_z _ (pad9_digits nano (by omega))
        simp only [List.cons_append, parseFrac, ht, hw]
        rw [show (pad9 nano).isEmpty = false from rfl]
        simp only [if_false, Bool.false_eq_true]
        rw [nanoFromDigits_pad9 _ (by omega)]

theorem parseFrac_bound (cs : List Char) (nano : Nat) (rest : List Char)
    (h : parseFrac cs = some (nano, rest)) : nano < 1000000000 := by
  unfold parseFrac at h
  split at h
  · split at h
    · exact absurd h (by simp)
    · rename_i rest0 _
      injection h with h1
      have hm : ∀ c ∈ rest0.takeWhile isDigitB, isDigitB c = true :=
        fun c hc => List.mem_takeWhile_imp hc
      have := nanoFromDigits_lt _ hm
      have h2 : nano = nanoFromDigits (rest0.takeWhile isDigitB) := by
        have := congrArg Prod.fst h1
        simpa using this.symm
      omega
  · injection h with h1
    have h2 : nano = 0 := by
      have := congrArg Prod.fst h1
      simpa using this.symm
    omega

theorem parseOffset_bound (cs : List Char) (off : Int)
    (h : parseOffset cs = some off) : -1440 < off ∧ off < 1440 := by
  unfold parseOffset at h
  split at h
  · injection h with h1; omega
  · split at h
    · rename_i hh mm _
      split at h
      · rename_i hb
        injection h with h1
        omega
      · exact absurd h (by simp)
    · exact absurd h (by simp)
  · split at h
    · rename_i hh mm _
      split at h
      · rename_i hb
        injection h with h1
        omega
      · exact absurd h (by simp)
    · exact absurd h (by simp)
  · exact absurd h (by simp)

theorem daysInMonth_pos (y m : Nat) : 1 ≤ daysInMonth y m := by
  unfold daysInMonth
  split
  · split <;> omega
  · split <;> omega

theorem daysInMonth_le_31 (y m : Nat) : daysInMonth y m ≤ 31 := by
  unfold daysInMonth
  split
  · split <;> omega
  · split <;> omega

theorem daysInMonth_12 (y : Nat) : daysInMonth y 12 = 31 := rfl

theorem daysInMonth_1 (y : Nat) : daysInMonth y 1 = 31 := rfl

theorem prevYmd_spec (y m d : Nat) (h : validYmd y m d) :
    validYmd (prevYmd y m d).1 (prevYmd y m d).2.1 (prevYmd y m d).2.2 ∧
      (prevYmd y m d).1 ≤ y := by
  obtain ⟨h1, h2, h3, h4⟩ := h
  unfold prevYmd validYmd
  split
  · simp only
    omega
  · split
    · simp only
      refine ⟨⟨by omega, by omega, daysInMonth_pos _ _, le_refl _⟩, le_refl _⟩
    · simp only
      exact ⟨⟨by omega, by omega, by omega, by rw [daysInMonth_12]⟩, by omega⟩

theorem nextYmd_spec (y m d : Nat) (h : validYmd y m d) :
    validYmd (nextYmd y m d).1 (nextYmd y m d).2.1 (nextYmd y m d).2.2 ∧
      (nextYmd y m d).1 ≤ y + 1 := by
  obtain ⟨h1, h2, h3, h4⟩ := h
  unfold nextYmd validYmd
  split
  · simp only
    omega
  · split
    · simp only
      refine ⟨⟨by omega, by omega, by omega, daysInMonth_pos _ _⟩, by omega⟩
    · simp only
      refine ⟨⟨by omega, by omega, by omega, ?_⟩, by omega⟩
      rw [daysInMonth_1]
      omega

theorem normTime_ok (y m d : Nat) (tm : Int) (se nano : Nat) (t : DateTimeUtc)
    (hv : validYmd y m d) (hy : y ≤ 9999) (hse : se ≤ 59) (hn : nano < 1000000000)
    (h1 : -1440 < tm) (h2 : tm < 2880)
    (h : normTime y m d tm se nano = some t) : TsOk t := by
  unfold normTime at h
  split at h
  · split at h
    · exact absurd h (by simp)
    · injection h with h3
      subst h3
      obtain ⟨hva, hvb⟩ := prevYmd_spec y m d hv
      refine ⟨hva, ?_, ?_, ?_, hse, hn⟩
      · show (prevYmd y m d).1 ≤ 9999
        omega
      · show ((tm + 1440) / 60).toNat ≤ 23
        omega
      · show ((tm + 1440) % 60).toNat ≤ 59
        omega
  · split at h
    · injection h with h3
      subst h3
      refine ⟨hv, hy, ?_, ?_, hse, hn⟩
      · show (tm / 60).toNat ≤ 23
        omega
      · show (tm % 60).toNat ≤ 59
        omega
    · split at h
      · injection h with h3
        subst h3
        obtain ⟨hva, hvb⟩ := nextYmd_spec y m d hv
        rename_i hy2
        refine ⟨hva, hy2, ?_, ?_, hse, hn⟩
        · show ((tm - 1440) / 60).toNat ≤ 23
          omega
        · show ((tm - 1440) % 60).toNat ≤ 59
          omega
      · exact absurd h (by simp)

theorem parseTsChars_ok (cs : List Char) (t : DateTimeUtc)
    (h : parseTsChars cs = some t) : TsOk t := by
  unfold parseTsChars at h
  split at h
  · split at h
    · exact absurd h (by simp)
    · split at h
      · exact absurd h (by simp)
      · split at h
        · exact absurd h (by simp)
        · split at h
          · exact absurd h (by simp)
          · split at h
            · exact absurd h (by simp)
            · split at h
              · exact absurd h (by simp)
              · split at h
                · exact absurd h (by simp)
                · split at h
                  · exact absurd h (by simp)
                  · split at h
                    · rename_i x1 nano rest2 heqfr x0 off heqof hcond
                      obtain ⟨hv, hy, hh2, hmi2, hse2⟩ := hcond
                      have hfb := parseFrac_bound _ _ _ heqfr
                      have hob := parseOffset_bound _ _ heqof
                      exact normTime_ok _ _ _ _ _ _ _ hv hy hse2 hfb
                        (by omega) (by omega) h
                    · exact absurd h (by simp)
  · exact absurd h (by simp)

theorem parseTsChars_formatChars (t : DateTimeUtc) (h : TsOk t) :
    parseTsChars (formatChars t) = some t := by
  obtain ⟨hval, hy, hh, hmi, hse, hn⟩ := h
  have hm2 : t.month ≤ 12 := hval.2.1
  have hd31 : t.day ≤ 31 := le_trans hval.2.2.2 (daysInMonth_le_31 _ _)
  unfold formatChars pad2
  simp only [List.cons_append, List.nil_append]
  simp only [parseTsChars]
  rw [d4_pad _ hy, d2_pad2 t.month (by omega), d2_pad2 t.day (by omega),
      d2_pad2 t.hour (by omega), d2_pad2 t.minute (by omega), d2_pad2 t.second (by omega),
      parseFrac_fracChars _ hn]
  simp only [parseOffset]
  rw [if_pos ⟨hval, hy, hh, hmi, hse⟩]
  unfold normTime
  rw [if_neg (by omega : ¬((t.hour : Int) * 60 + t.minute - 0 < 0)),
      if_pos (by omega : (t.hour : Int) * 60 + t.minute - 0 < 1440)]
  have e1 : (((t.hour : Int) * 60 + t.minute - 0) / 60).toNat = t.hour := by omega
  have e2 : (((t.hour : Int) * 60 + t.minute - 0) % 60).toNat = t.minute := by omega
  rw [e1, e2]

theorem parseTimestamp_formatTimestamp (t : DateTimeUtc) (h : TsOk t) :
    parseTimestamp (formatTimestamp t) = some t :=
  parseTsChars_formatChars t h

theorem decodeTimestamp_ok (j : Json) (t : DateTimeUtc)
    (h : decodeTimestamp j = .ok t) : TsOk t := by
  unfold decodeTimestamp at h
  split at h
  · split at h
    · injection h with h2
      subst h2
      rename_i s t2 heq
      exact parseTsChars_ok _ _ heq
    · exact absurd h (by simp)
  · exact absurd h (by simp)

theorem decodeTimestamp_encode (t : DateTimeUtc) (h : TsOk t) :
    decodeTimestamp (.str (formatTimestamp t)) = .ok t := by
  simp only [decodeTimestamp]
  rw [parseTimestamp_formatTimestamp t h]

theorem rt_identity (i : Identity) : decodeIdentity (encodeIdentity i) = .ok i := rfl

theorem rt_reqparams (p : S3RequestParameters) :
    decodeS3RequestParameters (encodeS3RequestParameters p) = .ok p := rfl

theorem rt_respelems (q : S3ResponseElements) :
    decodeS3ResponseElements (encodeS3ResponseElements q) = .ok q := rfl

theorem rt_bucket (b : S3Bucket) : decodeS3Bucket (encodeS3Bucket b) = .ok b := rfl

theorem rt_optStr (s : Option String) :
    decodeOptVal decodeString (some (encodeOptStr s)) = .ok s := by
  cases s <;> rfl

theorem rt_optI64 (s : Option Int) (h : optI64Ok s) :
    decodeOptVal decodeI64 (some (encodeOptI64 s)) = .ok s := by
  cases s with
  | none => rfl
  | some n =>
    simp only [encodeOptI64, decodeOptVal, decodeI64]
    rw [if_pos (show -(2 : Int) ^ 63 ≤ n ∧ n < 2 ^ 63 from h)]
    rfl

theorem rt_object (o : S3Object) (h : S3ObjectOk o) :
    decodeS3Object (encodeS3Object o) = .ok o := by
  have hsz := rt_optI64 o.size h
  simp only [decodeS3Object, encodeS3Object, getReq, getOpt, jLookup, List.lookup,
    String.reduceBEq, hsz, rt_optStr, decodeString]

theorem rt_entity (s : S3Entity) (h : S3ObjectOk s.object) :
    decodeS3Entity (encodeS3Entity s) = .ok s := by
  simp only [decodeS3Entity, encodeS3Entity, getReq, jLookup, List.lookup,
    String.reduceBEq, decodeString, rt_bucket, rt_object s.object h]

theorem rt_record (r : S3Record) (h : S3RecordOk r) :
    decodeS3Record (encodeS3Record r) = .ok r := by
  obtain ⟨ht, ho⟩ := h
  simp only [decodeS3Record, encodeS3Record, getReq, jLookup, List.lookup,
    String.reduceBEq, decodeString, rt_identity, rt_reqparams, rt_respelems,
    decodeTimestamp_encode r.event_time ht, rt_entity r.s3 ho]

theorem rt_records (rs : List S3Record) (h : ∀ r ∈ rs, S3RecordOk r) :
    decodeRecords (rs.map encodeS3Record) = .ok rs := by
  induction rs with
  | nil => rfl
  | cons r tl ih =>
    have hr : S3RecordOk r := h r (by simp)
    have htl := ih (fun x hx => h x (by simp [hx]))
    simp only [List.map_cons, decodeRecords, rt_record r hr, htl]

theorem rt_event (e : S3Event) (h : S3EventOk e) :
    decodeS3Event (encodeS3Event e) = .ok e := by
  simp only [decodeS3Event, encodeS3Event, getReq, jLookup, List.lookup,
    String.reduceBEq, rt_records e.records h]

theorem decodeS3Object_inv (j : Json) (o : S3Object) (h : decodeS3Object j = .ok o) :
    ∃ fs, j = .obj fs ∧ getReq fs "key" decodeString = .ok o.key ∧
      getOpt fs "size" decodeI64 = .ok o.size ∧
      getOpt fs "versionId" decodeString = .ok o.version_id ∧
      getOpt fs "eTag" decodeString = .ok o.e_tag ∧
      getOpt fs "sequencer" decodeString = .ok o.sequencer := by
  unfold decodeS3Object at h
  split at h
  case _ fs =>
    split at h
    · exact absurd h (by simp)
    · rename_i x0 v0 heq0
      split at h
      · exact absurd h (by simp)
      · rename_i x1 v1 heq1
        split at h
        · exact absurd h (by simp)
        · rename_i x2 v2 heq2
          split at h
          · exact absurd h (by simp)
          · rename_i x3 v3 heq3
            split at h
            · exact absurd h (by simp)
            · rename_i x4 v4 heq4
              injection h with h2
              subst h2
              exact ⟨fs, rfl, heq0, heq1, heq2, heq3, heq4⟩
  case _ =>
    exact absurd h (by simp)

theorem decodeS3Entity_inv (j : Json) (o : S3Entity) (h : decodeS3Entity j = .ok o) :
    ∃ fs, j = .obj fs ∧ getReq fs "s3SchemaVersion" decodeString = .ok o.schema_version ∧
      getReq fs "configurationId" decodeString = .ok o.configuration_id ∧
      getReq fs "bucket" decodeS3Bucket = .ok o.bucket ∧
      getReq fs "object" decodeS3Object = .ok o.object := by
  unfold decodeS3Entity at h
  split at h
  case _ fs =>
    split at h
    · exact absurd h (by simp)
    · rename_i x0 v0 heq0
      split at h
      · exact absurd h (by simp)
      · rename_i x1 v1 heq1
        split at h
        · exact absurd h (by simp)
        · rename_i x2 v2 heq2
          split at h
          · exact absurd h (by simp)
          · rename_i x3 v3 heq3
            injection h with h2
            subst h2
            exact ⟨fs, rfl, heq0, heq1, heq2, heq3⟩
  case _ =>
    exact absurd h (by simp)

theorem decodeS3Record_inv (j : Json) (o : S3Record) (h : decodeS3Record j = .ok o) :
    ∃ fs, j = .obj fs ∧ getReq fs "eventVersion" decodeString = .ok o.event_version ∧
      getReq fs "eventSource" decodeString = .ok o.event_source ∧
      getReq fs "awsRegion" decodeString = .ok o.aws_region ∧
      getReq fs "eventTime" decodeTimestamp = .ok o.event_time ∧
      getReq fs "eventName" decodeString = .ok o.event_name ∧
      getReq fs "userIdentity" decodeIdentity = .ok o.user_identity ∧
      getReq fs "requestParameters" decodeS3RequestParameters = .ok o.request_parameters ∧
      getReq fs "responseElements" decodeS3ResponseElements = .ok o.response_elements ∧
      getReq fs "s3" decodeS3Entity = .ok o.s3 := by
  unfold decodeS3Record at h
  split at h
  case _ fs =>
    split at h
    · exact absurd h (by simp)
    · rename_i x0 v0 heq0
      split at h
      · exact absurd h (by simp)
      · rename_i x1 v1 heq1
        split at h
        · exact absurd h (by simp)
        · rename_i x2 v2 heq2
          split at h
          · exact absurd h (by simp)
          · rename_i x3 v3 heq3
            split at h
            · exact absurd h (by simp)
            · rename_i x4 v4 heq4
              split at h
              · exact absurd h (by simp)
              · rename_i x5 v5 heq5
                split at h
                · exact absurd h (by simp)
                · rename_i x6 v6 heq6
                  split at h
                  · exact absurd h (by simp)
                  · rename_i x7 v7 heq7
                    split at h
                    · exact absurd h (by simp)
                    · rename_i x8 v8 heq8
                      injection h with h2
                      subst h2
                      exact ⟨fs, rfl, heq0, heq1, heq2, heq3, heq4, heq5, heq6, heq7, heq8⟩
  case _ =>
    exact absurd h (by simp)

theorem getReq_ok_inv {α : Type} (fs : List (String × Json)) (k : String)
    (dec : Json → Except DecError α) (a : α) (h : getReq fs k dec = .ok a) :
    ∃ v, jLookup fs k = some v ∧ dec v = .ok a := by
  unfold getReq at h
  split at h
  · exact absurd h (by simp)
  · rename_i v heq
    exact ⟨v, heq, h⟩

theorem decodeI64_ok (v : Json) (n : Int) (h : decodeI64 v = .ok n) :
    -(2 ^ 63) ≤ n ∧ n < 2 ^ 63 := by
  unfold decodeI64 at h
  split at h
  · split at h
    · injection h with h2
      subst h2
      assumption
    · exact absurd h (by simp)
  · exact absurd h (by simp)

theorem decodeOptI64_ok (x : Option Json) (s : Option Int)
    (h : decodeOptVal decodeI64 x = .ok s) : optI64Ok s := by
  unfold decodeOptVal at h
  split at h
  · injection h with h2; subst h2; trivial
  · injection h with h2; subst h2; trivial
  · rename_i v hv
    cases hd : decodeI64 v with
    | error e => rw [hd] at h; exact absurd h (by simp [Except.map])
    | ok n =>
      rw [hd] at h
      simp only [Except.map] at h
      injection h with h2
      subst h2
      exact decodeI64_ok v n hd

theorem decodeS3Object_ok (j : Json) (o : S3Object) (h : decodeS3Object j = .ok o) :
    S3ObjectOk o := by
  obtain ⟨fs, hj, hk, hs, hv, he, hq⟩ := decodeS3Object_inv j o h
  exact decodeOptI64_ok _ _ hs

theorem decodeS3Entity_ok (j : Json) (s : S3Entity) (h : decodeS3Entity j = .ok s) :
    S3ObjectOk s.object := by
  obtain ⟨fs, hj, h1, h2, h3, h4⟩ := decodeS3Entity_inv j s h
  obtain ⟨v, hv, hdec⟩ := getReq_ok_inv _ _ _ _ h4
  exact decodeS3Object_ok v s.object hdec

theorem decodeS3Record_ok (j : Json) (r : S3Record) (h : decodeS3Record j = .ok r) :
    S3RecordOk r := by
  obtain ⟨fs, hj, h1, h2, h3, h4, h5, h6, h7, h8, h9⟩ := decodeS3Record_inv j r h
  obtain ⟨v, hv, hdec⟩ := getReq_ok_inv _ _ _ _ h4
  obtain ⟨w, hw, hdec2⟩ := getReq_ok_inv _ _ _ _ h9
  exact ⟨decodeTimestamp_ok v r.event_time hdec, decodeS3Entity_ok w r.s3 hdec2⟩

theorem decodeRecords_ok (xs : List Json) (rs : List S3Record)
    (h : decodeRecords xs = .ok rs) : ∀ r ∈ rs, S3RecordOk r := by
  induction xs generalizing rs with
  | nil =>
    unfold decodeRecords at h
    injection h with h2
    subst h2
    intro r hr
    exact absurd hr (by simp)
  | cons j tl ih =>
    unfold decodeRecords at h
    split at h
    · exact absurd h (by simp)
    · rename_i r0 hr0
      split at h
      · exact absurd h (by simp)
      · rename_i tl2 htl2
        injection h with h2
        subst h2
        intro r hr
        rcases List.mem_cons.mp hr with h3 | h3
        · subst h3
          exact decodeS3Record_ok j r hr0
        · exact ih tl2 htl2 r h3

theorem decodeS3Event_inv (j : Json) (ev : S3Event) (h : decodeS3Event j = .ok ev) :
    ∃ fs xs, j = .obj fs ∧ jLookup fs "Records" = some (.arr xs) ∧
      decodeRecords xs = .ok ev.records := by
  unfold decodeS3Event at h
  split at h
  case _ fs =>
    split at h
    · exact absurd h (by simp)
    · rename_i x0 ev0 heq0
      injection h with h2
      subst h2
      obtain ⟨v, hv, hdec⟩ := getReq_ok_inv _ _ _ _ heq0
      cases v with
      | arr xs =>
        refine ⟨fs, xs, rfl, hv, ?_⟩
        have hdec3 : (match decodeRecords xs with
            | Except.error e => (Except.error e : Except DecError S3Event)
            | Except.ok rs => Except.ok (S3Event.mk rs)) = Except.ok ev0 := hdec
        cases hd : decodeRecords xs with
        | error e =>
          rw [hd] at hdec3
          exact absurd hdec3 (by simp)
        | ok rs =>
          rw [hd] at hdec3
          have hdec2 : (Except.ok (S3Event.mk rs) : Except DecError S3Event) = .ok ev0 := hdec3
          injection hdec2 with h3
          rw [← h3]
      | null => exact absurd hdec (by simp)
      | bool b => exact absurd hdec (by simp)
      | num n => exact absurd hdec (by simp)
      | str s2 => exact absurd hdec (by simp)
      | obj fs2 => exact absurd hdec (by simp)
  case _ =>
    exact absurd h (by simp)

theorem decodeS3Event_ok (j : Json) (ev : S3Event) (h : decodeS3Event j = .ok ev) :
    S3EventOk ev := by
  obtain ⟨fs, xs, hj, hl, hr⟩ := decodeS3Event_inv j ev h
  exact decodeRecords_ok xs ev.records hr

/-! ### Claim theorems -/

/-- C1: for every `S3Event` value `r` obtained by decoding a wire
document, decoding the encoding of `r` yields `r` again — one
decode/encode round-trip is an idempotent fixed point of the S3 typed
record definition. -/
theorem c1_decode_encode_roundtrip (j : Json) (r : S3Event)
    (h : decodeS3Event j = .ok r) : decodeS3Event (encodeS3Event r) = .ok r :=
  rt_event r (decodeS3Event_ok j r h)

/-- C1 witness: the round trip evaluated on the captured
object-created sample payload. -/
theorem c1_witness :
    decodeS3Event (encodeS3Event sampleEvent) = .ok sampleEvent :=
  c1_decode_encode_roundtrip sampleWire sampleEvent rfl

theorem getOpt_absent {α : Type} (fs : List (String × Json)) (k : String)
    (dec : Json → Except DecError α) (h : jLookup fs k = none) :
    getOpt fs k dec = .ok none := by
  unfold getOpt
  rw [h]
  rfl

theorem getReq_absent {α : Type} (fs : List (String × Json)) (k : String)
    (dec : Json → Except DecError α) (h : jLookup fs k = none) :
    getReq fs k dec = .error (.missingField k) := by
  unfold getReq
  rw [h]

theorem jLookup_cons_ne {k k2 : String} {v : Json} {fs : List (String × Json)}
    (h : k2 ≠ k) : jLookup ((k, v) :: fs) k2 = jLookup fs k2 := by
  unfold jLookup
  simp [List.lookup, beq_eq_false_iff_ne.mpr h]

theorem getReq_cons_ne {α : Type} {k k2 : String} {v : Json}
    {fs : List (String × Json)} {dec : Json → Except DecError α} (h : k2 ≠ k) :
    getReq ((k, v) :: fs) k2 dec = getReq fs k2 dec := by
  unfold getReq
  rw [jLookup_cons_ne h]

theorem getOpt_cons_ne {α : Type} {k k2 : String} {v : Json}
    {fs : List (String × Json)} {dec : Json → Except DecError α} (h : k2 ≠ k) :
    getOpt ((k, v) :: fs) k2 dec = getOpt fs k2 dec := by
  unfold getOpt
  rw [jLookup_cons_ne h]

/-- C2 counterexample: the captured sample has no `versionId` key; it
decodes with `version_id = none`, yet re-encoding does NOT omit the
`versionId` key — the key is emitted with an explicit null value. -/
theorem c2_counterexample :
    decodeS3Object sampleObjectJson = .ok sampleObject ∧
      jLookup (jsonFields (encodeS3Object sampleObject)) "versionId" =
        some Json.null :=
  ⟨rfl, rfl⟩

/-- C2 amended: decoding a mapping without a `versionId` key yields
`version_id = none`, and encoding such a record emits the `versionId`
key with an explicit JSON null rather than omitting it (no
`skip_serializing_if` is declared on any optional field). -/
theorem c2_absent_version_id_encodes_null (fs : List (String × Json)) (o : S3Object)
    (hdec : decodeS3Object (.obj fs) = .ok o)
    (habs : jLookup fs "versionId" = none) :
    o.version_id = none ∧
      jLookup (jsonFields (encodeS3Object o)) "versionId" = some Json.null := by
  obtain ⟨fs2, hj, hk, hs, hv, he, hq⟩ := decodeS3Object_inv _ o hdec
  have hfs : fs2 = fs := by injection hj with h2; exact h2.symm
  subst hfs
  rw [getOpt_absent fs2 "versionId" decodeString habs] at hv
  injection hv with h3
  have hvid : o.version_id = none := h3.symm
  refine ⟨hvid, ?_⟩
  show some (encodeOptStr o.version_id) = some Json.null
  rw [hvid]
  rfl

/-- C2 witness: the amended statement evaluated on the captured sample. -/
theorem c2_witness :
    sampleObject.version_id = none ∧
      jLookup (jsonFields (encodeS3Object sampleObject)) "versionId" =
        some Json.null :=
  c2_absent_version_id_encodes_null (jsonFields sampleObjectJson) sampleObject rfl rfl

/-- C3 counterexample: a wire mapping without the `versionId` key and a
wire mapping with an explicitly null `versionId` decode to the very same
canonical record — the two wire states are not distinguishable after
decoding, so re-encoding cannot reproduce the original absent-vs-null
form. -/
theorem c3_counterexample :
    decodeS3Object sampleObjectJson = .ok sampleObject ∧
      decodeS3Object (.obj (("versionId", Json.null) :: jsonFields sampleObjectJson)) =
        .ok sampleObject :=
  ⟨rfl, rfl⟩

/-- C3 amended: for every optional field of `S3Object`, a missing key
and an explicitly-null key decode to the same canonical state `none`
(the distinction is lost), and a record whose optional field is `none`
re-encodes the field as explicit null regardless of which wire form it
came from. -/
theorem c3_absent_null_conflated {α : Type} (dec : Json → Except DecError α)
    (fs : List (String × Json)) (k : String) :
    (jLookup fs k = none → getOpt fs k dec = .ok none) ∧
      getOpt ((k, Json.null) :: fs) k dec = .ok none ∧
      (∀ o : S3Object, o.version_id = none →
        jLookup (jsonFields (encodeS3Object o)) "versionId" = some Json.null) := by
  refine ⟨getOpt_absent fs k dec, ?_, ?_⟩
  · unfold getOpt jLookup
    simp [List.lookup]
    rfl
  · intro o ho
    show some (encodeOptStr o.version_id) = some Json.null
    rw [ho]
    rfl

/-- C3 witness: the adapter evaluated at a concrete absent key. -/
theorem c3_witness : getOpt ([] : List (String × Json)) "versionId" decodeString = .ok none :=
  (c3_absent_null_conflated decodeString [] "versionId").1 rfl

/-- C4: the optional-field adapter used for the four `Option` fields of
`S3Object`: an absent key yields the default `none` for every inner
codec (so the inner codec is not consulted); a present null key yields
`none`; a present non-null value delegates to the inner codec, failing
exactly when it fails; and at the record level an absent `size` key
decodes to `size = none` without error. -/
theorem c4_optional_field_adapter {α : Type} (dec : Json → Except DecError α)
    (fs : List (String × Json)) (k : String) :
    (jLookup fs k = none → getOpt fs k dec = .ok none) ∧
      (jLookup fs k = some Json.null → getOpt fs k dec = .ok none) ∧
      (∀ v, jLookup fs k = some v → v ≠ Json.null →
        getOpt fs k dec = (dec v).map some) ∧
      (∀ (fs2 : List (String × Json)) (o : S3Object),
        decodeS3Object (.obj fs2) = .ok o → jLookup fs2 "size" = none →
          o.size = none) := by
  refine ⟨getOpt_absent fs k dec, ?_, ?_, ?_⟩
  · intro h
    unfold getOpt
    rw [h]
    rfl
  · intro v h hv
    unfold getOpt
    rw [h]
    cases v with
    | null => exact absurd rfl hv
    | bool b => rfl
    | num n => rfl
    | str s2 => rfl
    | arr xs => rfl
    | obj fs2 => rfl
  · intro fs2 o hdec habs
    obtain ⟨fs3, hj, hk, hs, hv, he, hq⟩ := decodeS3Object_inv _ o hdec
    have hfs : fs3 = fs2 := by injection hj with h2; exact h2.symm
    subst hfs
    rw [getOpt_absent fs3 "size" decodeI64 habs] at hs
    injection hs with h3
    exact h3.symm

/-- C4 witness: the three presence states and the record-level absent
`size`, each at a concrete input. -/
theorem c4_witness :
    getOpt ([] : List (String × Json)) "size" decodeI64 = .ok none ∧
      getOpt [("size", Json.null)] "size" decodeI64 = .ok none ∧
      getOpt [("size", Json.str "12")] "size" decodeI64 =
        (decodeI64 (Json.str "12")).map some ∧
      (S3Object.mk "k" none none none none).size = none :=
  ⟨(c4_optional_field_adapter decodeI64 [] "size").1 rfl,
   (c4_optional_field_adapter decodeI64 [("size", Json.null)] "size").2.1 rfl,
   (c4_optional_field_adapter decodeI64 [("size", Json.str "12")] "size").2.2.1
     (Json.str "12") rfl (by simp),
   (c4_optional_field_adapter decodeI64 [] "size").2.2.2 [("key", Json.str "k")]
     (S3Object.mk "k" none none none none) rfl rfl⟩

/-- C5: decoding an `S3Record` fails atomically whenever a required
field is missing from the wire mapping or its value is not decodable
(shown for `eventSource`, `eventTime`, `awsRegion` and the required
nested `s3` object): the result is an error value, never a
partially-populated record. -/
theorem c5_required_field_failfast (fs : List (String × Json))
    (h : jLookup fs "eventSource" = none ∨ jLookup fs "eventTime" = none ∨
      jLookup fs "awsRegion" = none ∨ jLookup fs "s3" = none ∨
      (∃ v e0, jLookup fs "eventTime" = some v ∧ decodeTimestamp v = .error e0)) :
    ∃ e, decodeS3Record (.obj fs) = .error e := by
  cases hr : decodeS3Record (.obj fs) with
  | error e => exact ⟨e, rfl⟩
  | ok r =>
    exfalso
    obtain ⟨fs2, hj, h1, h2, h3, h4, h5, h6, h7, h8, h9⟩ := decodeS3Record_inv _ r hr
    have hfs : fs2 = fs := by injection hj with hx; exact hx.symm
    subst hfs
    rcases h with hh | hh | hh | hh | ⟨v, e0, hv, he0⟩
    · rw [getReq_absent fs2 "eventSource" decodeString hh] at h2
      exact absurd h2 (by simp)
    · rw [getReq_absent fs2 "eventTime" decodeTimestamp hh] at h4
      exact absurd h4 (by simp)
    · rw [getReq_absent fs2 "awsRegion" decodeString hh] at h3
      exact absurd h3 (by simp)
    · rw [getReq_absent fs2 "s3" decodeS3Entity hh] at h9
      exact absurd h9 (by simp)
    · obtain ⟨w, hw, hdw⟩ := getReq_ok_inv _ _ _ _ h4
      rw [hv] at hw
      injection hw with hvw
      rw [← hvw] at hdw
      rw [he0] at hdw
      exact absurd hdw (by simp)

/-- C5 witness: the empty mapping is missing `eventSource`. -/
theorem c5_witness : ∃ e, decodeS3Record (.obj []) = .error e :=
  c5_required_field_failfast [] (Or.inl rfl)

/-- C6: wire keys not declared by the record definition are ignored on
decode (at the event level and at the nested object level) and are never
reproduced on encode (the encoders emit exactly the declared keys);
recognized optional fields such as `size` are decoded, not dropped. -/
theorem c6_unknown_keys_ignored :
    (∀ (k : String) (v : Json) (fs : List (String × Json)), k ≠ "Records" →
      decodeS3Event (.obj ((k, v) :: fs)) = decodeS3Event (.obj fs)) ∧
      (∀ (k : String) (v : Json) (fs : List (String × Json)),
        k ∉ (["key", "size", "versionId", "eTag", "sequencer"] : List String) →
        decodeS3Object (.obj ((k, v) :: fs)) = decodeS3Object (.obj fs)) ∧
      (∀ e : S3Event, jsonKeys (encodeS3Event e) = ["Records"]) ∧
      (∀ o : S3Object, jsonKeys (encodeS3Object o) =
        ["key", "size", "versionId", "eTag", "sequencer"]) ∧
      decodeS3Object (.obj [("key", .str "HappyFace.jpg"), ("size", .num 1024)]) =
        .ok ⟨"HappyFace.jpg", some 1024, none, none, none⟩ := by
  refine ⟨?_, ?_, fun e => rfl, fun o => rfl, rfl⟩
  · intro k v fs h
    simp only [decodeS3Event, getReq_cons_ne (Ne.symm h)]
  · intro k v fs h
    simp only [List.mem_cons, List.not_mem_nil, or_false, not_or] at h
    obtain ⟨n1, n2, n3, n4, n5⟩ := h
    simp only [decodeS3Object, getReq_cons_ne (Ne.symm n1), getOpt_cons_ne (Ne.symm n2),
      getOpt_cons_ne (Ne.symm n3), getOpt_cons_ne (Ne.symm n4), getOpt_cons_ne (Ne.symm n5)]

/-- C6 witness: an undeclared key at a concrete input. -/
theorem c6_witness :
    decodeS3Event (.obj [("glacierEventData", Json.null)]) = decodeS3Event (.obj []) :=
  c6_unknown_keys_ignored.1 "glacierEventData" Json.null [] (by decide)

/-- C7: decoding is a total function into a typed result: for every
wire value it returns either a decoded event or a typed error value —
malformed inputs (wrong structural kind, a string where a number is
required, an unparsable timestamp) produce errors, never a crash. -/
theorem c7_total_no_panic :
    (∀ j, (∃ r, decodeS3Event j = .ok r) ∨ (∃ e, decodeS3Event j = .error e)) ∧
      decodeS3Event (.num 3) = .error (.typeMismatch "S3Event object") ∧
      decodeS3Event (.obj [("Records", .str "x")]) =
        .error (.typeMismatch "Records array") ∧
      decodeS3Object (.obj [("key", .str "k"), ("size", .str "12")]) =
        .error (.typeMismatch "i64") ∧
      decodeS3Event (.obj [("Records", .arr [
        .obj [("eventVersion", .str "2.0"),
              ("eventSource", .str "aws:s3"),
              ("awsRegion", .str "us-east-1"),
              ("eventTime", .str "not a timestamp"),
              ("eventName", .str "ObjectCreated:Put"),
              ("userIdentity", .obj [("principalId", .str "EXAMPLE")]),
              ("requestParameters", .obj [("sourceIPAddress", .str "127.0.0.1")]),
              ("responseElements", .obj [("x-amz-request-id", .str "C3D13FE58DE4C810"),
                                         ("x-amz-id-2", .str "FMyUVURIY8")]),
              ("s3", .obj [("s3SchemaVersion", .str "1.0"),
                           ("configurationId", .str "testConfigRule"),
                           ("bucket", .obj [("name", .str "mybucket"),
                                            ("ownerIdentity", .obj [("principalId", .str "EXAMPLE")]),
                                            ("arn", .str "arn:aws:s3:::mybucket")]),
                           ("object", sampleObjectJson)])]])]) =
        .error (.invalidValue "ISO-8601 date-time") := by
  refine ⟨?_, rfl, rfl, rfl, rfl⟩
  intro j
  cases h : decodeS3Event j with
  | ok r => exact Or.inl ⟨r, rfl⟩
  | error e => exact Or.inr ⟨e, rfl⟩

/-- C8: every encoder emits exactly the declared wire keys with their
exact casing: the leading-capital `Records`, the lower-camel-case keys,
`s3SchemaVersion`, `sourceIPAddress` and the hyphenated
`x-amz-request-id` and `x-amz-id-2`. -/
theorem c8_declared_wire_keys :
    (∀ e : S3Event, jsonKeys (encodeS3Event e) = ["Records"]) ∧
      (∀ r : S3Record, jsonKeys (encodeS3Record r) =
        ["eventVersion", "eventSource", "awsRegion", "eventTime", "eventName",
         "userIdentity", "requestParameters", "responseElements", "s3"]) ∧
      (∀ i : Identity, jsonKeys (encodeIdentity i) = ["principalId"]) ∧
      (∀ p : S3RequestParameters, jsonKeys (encodeS3RequestParameters p) =
        ["sourceIPAddress"]) ∧
      (∀ q : S3ResponseElements, jsonKeys (encodeS3ResponseElements q) =
        ["x-amz-request-id", "x-amz-id-2"]) ∧
      (∀ s : S3Entity, jsonKeys (encodeS3Entity s) =
        ["s3SchemaVersion", "configurationId", "bucket", "object"]) ∧
      (∀ b : S3Bucket, jsonKeys (encodeS3Bucket b) = ["name", "ownerIdentity", "arn"]) ∧
      (∀ o : S3Object, jsonKeys (encodeS3Object o) =
        ["key", "size", "versionId", "eTag", "sequencer"]) :=
  ⟨fun _ => rfl, fun _ => rfl, fun _ => rfl, fun _ => rfl, fun _ => rfl,
   fun _ => rfl, fun _ => rfl, fun _ => rfl⟩

/-- C9: `eventTime` decodes from an ISO-8601 date-time string with `Z`
or an explicit offset into a canonical value normalized to UTC (well
formed calendar fields, hour below 24, offset folded in — shown both in
general through the well-formedness of every parse result and on
concrete offset samples), and record decoding fails when the string is
not parseable. -/
theorem c9_event_time_iso8601 :
    (∀ (fs : List (String × Json)) (s : String),
      jLookup fs "eventTime" = some (.str s) → parseTimestamp s = none →
        ∃ e, decodeS3Record (.obj fs) = .error e) ∧
      (∀ (s : String) (t : DateTimeUtc), parseTimestamp s = some t → TsOk t) ∧
      parseTimestamp "2024-03-01T01:30:00+02:00" =
        some ⟨2024, 2, 29, 23, 30, 0, 0⟩ ∧
      parseTimestamp "1969-12-31T23:00:00-01:30" = some ⟨1970, 1, 1, 0, 30, 0, 0⟩ ∧
      parseTimestamp "1970-01-01T00:00:00.000Z" = some ⟨1970, 1, 1, 0, 0, 0, 0⟩ ∧
      parseTimestamp "not an ISO-8601 date-time" = none ∧
      parseTimestamp "1970-01-01" = none := by
  refine ⟨?_, ?_, rfl, rfl, rfl, rfl, rfl⟩
  · intro fs s hl hp
    cases hr : decodeS3Record (.obj fs) with
    | error e => exact ⟨e, rfl⟩
    | ok r =>
      exfalso
      obtain ⟨fs2, hj, h1, h2, h3, h4, h5, h6, h7, h8, h9⟩ := decodeS3Record_inv _ r hr
      have hfs : fs2 = fs := by injection hj with hx; exact hx.symm
      subst hfs
      obtain ⟨w, hw, hdw⟩ := getReq_ok_inv _ _ _ _ h4
      rw [hl] at hw
      injection hw with hvw
      rw [← hvw] at hdw
      have hdw2 : (match parseTimestamp s with
          | some t => (Except.ok t : Except DecError DateTimeUtc)
          | none => Except.error (DecError.invalidValue "ISO-8601 date-time")) =
          Except.ok r.event_time := hdw
      rw [hp] at hdw2
      exact absurd hdw2 (by simp)
  · intro s t h
    exact parseTsChars_ok s.data t h

/-- C9 witness: an unparsable `eventTime` makes record decoding fail. -/
theorem c9_witness :
    ∃ e, decodeS3Record (.obj [("eventTime", Json.str "nope")]) = .error e :=
  c9_event_time_iso8601.1 [("eventTime", Json.str "nope")] "nope" rfl rfl

/-- C10: an event whose `Records` key holds an empty array decodes to an
event with no records, while a mapping without the `Records` key fails
to decode. -/
theorem c10_records_empty_or_missing :
    decodeS3Event (.obj [("Records", .arr [])]) = .ok ⟨[]⟩ ∧
      (∀ fs : List (String × Json), jLookup fs "Records" = none →
        ∃ e, decodeS3Event (.obj fs) = .error e) := by
  refine ⟨rfl, ?_⟩
  intro fs h
  refine ⟨.missingField "Records", ?_⟩
  simp only [decodeS3Event]
  rw [getReq_absent fs "Records" _ h]

/-- C10 witness: the empty mapping has no `Records` key. -/
theorem c10_witness : ∃ e, decodeS3Event (.obj []) = .error e :=
  c10_records_empty_or_missing.2 [] rfl

end AwsLambdaEvents
